import Mathlib

/-!
Verification of the XRotor python binding layer (src/xrotor/xrotor.py)
against its natural-language specification.

The wrapper marshals data across a foreign-function boundary to an opaque
native solver.  We embed the wrapper's control flow shallowly: the native
library is a record of pure functions supplied as a parameter, python
exceptions become an explicit error type, and every native invocation the
wrapper performs is recorded in an observable call trace.  Real values are
carried symbolically as rationals; the claims under study concern control
flow, selector encoding, marshaling layout and resource lifecycle, none of
which depend on floating-point rounding.
-/

namespace XRotorSpec

/-- Python exceptions that the wrapper can raise, by class. -/
inductive PyError where
  | valueError (msg : String)
  | attributeError
  | fileNotFoundError
  | indexError
  | osError
  deriving DecidableEq, Repr

/-- Model of the native library entry points used by `XRotor.operate`:
`operate(imode, value, icon, con_value)` returning the rms residual, and
`get_blade_angle_change()` returning the pitch adjustment of the last
constrained solve.  Both are opaque to the wrapper, so they are supplied
as parameters. -/
structure NativeLib where
  operateFn : Int → ℚ → Option Int → Option ℚ → ℚ
  bladeAngleChange : ℚ

/-- Trace entries: one per native invocation made by the wrapper during a
call to `operate`. -/
inductive NativeCall where
  | operateCall (imode : Int) (value : ℚ) (icon : Option Int) (conValue : Option ℚ)
  | getBladeAngleChange
  deriving DecidableEq, Repr

/-- Return value of `XRotor.operate`: a bare residual, or a
(residual, blade-angle-change) pair when the rpm was constrained. -/
inductive OperateReturn where
  | scalar (rms : ℚ)
  | pair (rms : ℚ) (bladeAngleChange : ℚ)
  deriving DecidableEq, Repr

/-- Shallow embedding of `XRotor.operate` (src/xrotor/xrotor.py lines
168-199).  The second component is the sequence of native calls performed,
in order; an error result is a raised `ValueError` with the source's
message, and carries an empty trace because the checks precede any native
call in the source. -/
def operate (lib : NativeLib) (thrust torque power rpm : Option ℚ) :
    Except PyError OperateReturn × List NativeCall :=
  if thrust.isSome && torque.isSome && power.isSome then
    (.error (.valueError "Thrust, torque, and power cannot be specified simultaneously."), [])
  else if thrust.isSome && torque.isSome then
    (.error (.valueError "Thrust and torque cannot be specified simultaneously."), [])
  else if thrust.isSome && power.isSome then
    (.error (.valueError "Thrust and power cannot be specified simultaneously."), [])
  else
    match thrust, torque, power, rpm with
    | some t, _, _, some r =>
        (.ok (.pair (lib.operateFn 1 t (some 1) (some r)) lib.bladeAngleChange),
         [.operateCall 1 t (some 1) (some r), .getBladeAngleChange])
    | some t, _, _, none =>
        (.ok (.scalar (lib.operateFn 1 t (some 2) none)),
         [.operateCall 1 t (some 2) none])
    | none, some q, _, some r =>
        (.ok (.pair (lib.operateFn 2 q (some 1) (some r)) lib.bladeAngleChange),
         [.operateCall 2 q (some 1) (some r), .getBladeAngleChange])
    | none, some q, _, none =>
        (.ok (.scalar (lib.operateFn 2 q (some 2) none)),
         [.operateCall 2 q (some 2) none])
    | none, none, some p, some r =>
        (.ok (.pair (lib.operateFn 3 p (some 1) (some r)) lib.bladeAngleChange),
         [.operateCall 3 p (some 1) (some r), .getBladeAngleChange])
    | none, none, some p, none =>
        (.ok (.scalar (lib.operateFn 3 p (some 2) none)),
         [.operateCall 3 p (some 2) none])
    | none, none, none, some r =>
        (.ok (.scalar (lib.operateFn 4 r none none)),
         [.operateCall 4 r none none])
    | none, none, none, none =>
        (.error (.valueError "Neither thrust, torque, power, or rpm was provided."), [])

/-- A trivial native library used for concrete evaluations. -/
def trivLib : NativeLib :=
  { operateFn := fun _ _ _ _ => 0, bladeAngleChange := 0 }

end XRotorSpec

namespace XRotorSpec

/-- C3: a call to operate with thrust, torque, power and rpm all absent
raises a ValueError and performs no native call. -/
theorem C3_no_target_fails (lib : NativeLib) :
    operate lib none none none none =
      (.error (.valueError "Neither thrust, torque, power, or rpm was provided."), []) := by
  rfl

/-- C10: supplying torque and power together while thrust is absent is
accepted without error and dispatched as a torque solve (mode selector 2
with the torque value, secondary selector 2 when no rpm is given,
secondary selector 1 with the rpm value otherwise); the power argument
does not influence the result. -/
theorem C10_torque_power_accepted (lib : NativeLib) :
    (∀ q p : ℚ, operate lib none (some q) (some p) none =
        (.ok (.scalar (lib.operateFn 2 q (some 2) none)),
         [.operateCall 2 q (some 2) none]))
    ∧ (∀ q p r : ℚ, operate lib none (some q) (some p) (some r) =
        (.ok (.pair (lib.operateFn 2 q (some 1) (some r)) lib.bladeAngleChange),
         [.operateCall 2 q (some 1) (some r), .getBladeAngleChange]))
    ∧ (∀ q p p' : ℚ, ∀ rpm : Option ℚ,
        operate lib none (some q) (some p) rpm = operate lib none (some q) (some p') rpm) := by
  refine ⟨fun q p => rfl, fun q p r => rfl, fun q p p' rpm => ?_⟩
  cases rpm <;> rfl

/-- C1 counterexample: the combination torque plus power (thrust absent) is
a call supplying two of the three primary targets, yet at the concrete
input torque = 1, power = 1 the call succeeds and performs a native call,
refuting the claim that every such combination fails before any native
call. -/
theorem C1_counterexample :
    operate trivLib none (some 1) (some 1) none =
      (.ok (.scalar 0), [.operateCall 2 1 (some 2) none]) := by
  rfl

/-- C1 amended: a call to operate supplying two or more of thrust, torque,
power fails with a ValueError and performs no native call whenever the
combination includes thrust (thrust with torque, thrust with power, or all
three); the remaining two-target combination, torque with power, is
accepted and dispatched as a native torque solve. -/
theorem C1_mutual_exclusivity (lib : NativeLib) :
    (∀ t q p : ℚ, ∀ rpm : Option ℚ,
      operate lib (some t) (some q) (some p) rpm =
        (.error (.valueError "Thrust, torque, and power cannot be specified simultaneously."), []))
    ∧ (∀ t q : ℚ, ∀ rpm : Option ℚ,
      operate lib (some t) (some q) none rpm =
        (.error (.valueError "Thrust and torque cannot be specified simultaneously."), []))
    ∧ (∀ t p : ℚ, ∀ rpm : Option ℚ,
      operate lib (some t) none (some p) rpm =
        (.error (.valueError "Thrust and power cannot be specified simultaneously."), []))
    ∧ (∀ q p : ℚ, (operate lib none (some q) (some p) none).fst =
        .ok (.scalar (lib.operateFn 2 q (some 2) none))) := by
  exact ⟨fun t q p rpm => rfl, fun t q rpm => rfl, fun t p rpm => rfl, fun q p => rfl⟩

/-- C2: the four behavioral cases of operate and their encoding.  A sole
primary target uses mode selector 1 (thrust), 2 (torque) or 3 (power) with
secondary selector 2 and yields a scalar residual; a primary target
together with rpm uses secondary selector 1 carrying the rpm value and
yields a (residual, blade-angle-change) pair obtained through the
blade-angle-change pull; rpm alone uses mode selector 4 and yields a
scalar residual without any blade-angle-change read. -/
theorem C2_mode_dispatch (lib : NativeLib) :
    (∀ t : ℚ, operate lib (some t) none none none =
      (.ok (.scalar (lib.operateFn 1 t (some 2) none)), [.operateCall 1 t (some 2) none]))
    ∧ (∀ q : ℚ, operate lib none (some q) none none =
      (.ok (.scalar (lib.operateFn 2 q (some 2) none)), [.operateCall 2 q (some 2) none]))
    ∧ (∀ p : ℚ, operate lib none none (some p) none =
      (.ok (.scalar (lib.operateFn 3 p (some 2) none)), [.operateCall 3 p (some 2) none]))
    ∧ (∀ t r : ℚ, operate lib (some t) none none (some r) =
      (.ok (.pair (lib.operateFn 1 t (some 1) (some r)) lib.bladeAngleChange),
       [.operateCall 1 t (some 1) (some r), .getBladeAngleChange]))
    ∧ (∀ q r : ℚ, operate lib none (some q) none (some r) =
      (.ok (.pair (lib.operateFn 2 q (some 1) (some r)) lib.bladeAngleChange),
       [.operateCall 2 q (some 1) (some r), .getBladeAngleChange]))
    ∧ (∀ p r : ℚ, operate lib none none (some p) (some r) =
      (.ok (.pair (lib.operateFn 3 p (some 1) (some r)) lib.bladeAngleChange),
       [.operateCall 3 p (some 1) (some r), .getBladeAngleChange]))
    ∧ (∀ r : ℚ, operate lib none none none (some r) =
      (.ok (.scalar (lib.operateFn 4 r none none)), [.operateCall 4 r none none])
      ∧ NativeCall.getBladeAngleChange ∉ (operate lib none none none (some r)).snd) := by
  refine ⟨fun t => rfl, fun q => rfl, fun p => rfl, fun t r => rfl, fun q r => rfl,
    fun p r => rfl, fun r => ⟨rfl, ?_⟩⟩
  simp [operate]

/-- State of one session's owned resources, as seen by `XRotor.__del__`
(src/xrotor/xrotor.py lines 64-72).  `hasLibAttr` records whether the
`_lib` attribute is still bound (it is deleted by `del self._lib`);
`isWindows` selects whether `ctypes.windll` exists; the two counters count
how many times the module handle was freed and the temporary binary copy
removed, to make double-frees observable. -/
structure SessionState where
  hasLibAttr : Bool
  isWindows : Bool
  handleFreedCount : Nat
  fileRemovedCount : Nat
  fileExists : Bool
  deriving DecidableEq, Repr

/-- Shallow embedding of `XRotor.__del__`.  Reading `self._lib._handle`
raises AttributeError if `_lib` was already deleted; otherwise `_lib` is
deleted, the windows-only FreeLibrary is attempted inside a
try/except-AttributeError (a no-op off windows), and the finally-block
removes the temporary file, raising FileNotFoundError if it is already
gone. -/
def delSession (s : SessionState) : Except PyError Unit × SessionState :=
  if !s.hasLibAttr then (.error .attributeError, s)
  else
    let s1 : SessionState := { s with hasLibAttr := false }
    let s2 : SessionState :=
      if s.isWindows then { s1 with handleFreedCount := s1.handleFreedCount + 1 } else s1
    if s2.fileExists then
      (.ok (), { s2 with fileExists := false, fileRemovedCount := s2.fileRemovedCount + 1 })
    else (.error .fileNotFoundError, s2)

/-- Resource state of a freshly (successfully) constructed session on the
given platform: the `_lib` attribute is bound, the temporary copy exists,
and nothing has been freed yet. -/
def freshSession (isWindows : Bool) : SessionState :=
  ⟨true, isWindows, 0, 0, true⟩

/-- Environment outcomes that `XRotor.__init__` (together with the
module-level `lib_path` lookup, src/xrotor/xrotor.py lines 29-32 and
48-62) depends on: whether the glob matches a canonical artifact, whether
`copy2` succeeds, whether `cdll.LoadLibrary` succeeds, and what status the
native `init` entry point reports. -/
structure LoadEnv where
  artifactFound : Bool
  copyOk : Bool
  loadOk : Bool
  initReportsSuccess : Bool
  deriving DecidableEq, Repr

/-- Shallow embedding of session construction.  A missing artifact makes
the `glob.glob(...)[0]` subscript raise IndexError; a failed copy or a
failed dynamic load raises OSError; the return value of `self._lib.init()`
is discarded by the source, so the reported init status does not influence
the outcome. -/
def constructSession (isWindows : Bool) (e : LoadEnv) : Except PyError SessionState :=
  if !e.artifactFound then .error .indexError
  else if !e.copyOk then .error .osError
  else if !e.loadOk then .error .osError
  else .ok (freshSession isWindows)

end XRotorSpec

namespace XRotorSpec

/-- C4 counterexample: on a freshly constructed non-windows session the
first teardown succeeds, but invoking the teardown path a second time
raises AttributeError (the `_lib` attribute was deleted by the first
call), refuting the claim that teardown is idempotent and never raises. -/
theorem C4_counterexample :
    (delSession (freshSession false)).fst = .ok () ∧
    (delSession (delSession (freshSession false)).snd).fst = .error .attributeError := by
  exact ⟨rfl, rfl⟩

/-- C4 amended: on a fully constructed session the first teardown does not
raise, frees the module handle exactly once on windows and never
elsewhere, and removes the temporary copy exactly once; a second
invocation of the teardown path raises AttributeError while accessing the
deleted library attribute, before any resource action, so no resource is
double-freed — but the never-raises part of the claim fails on that second
call. -/
theorem C4_teardown (isWindows : Bool) :
    ((delSession (freshSession isWindows)).fst = .ok ()
      ∧ (delSession (freshSession isWindows)).snd.fileRemovedCount = 1
      ∧ (delSession (freshSession isWindows)).snd.fileExists = false
      ∧ (delSession (freshSession isWindows)).snd.handleFreedCount
          = (if isWindows then 1 else 0))
    ∧ ((delSession (delSession (freshSession isWindows)).snd).fst = .error .attributeError
      ∧ (delSession (delSession (freshSession isWindows)).snd).snd
          = (delSession (freshSession isWindows)).snd) := by
  cases isWindows <;> exact ⟨⟨rfl, rfl, rfl, rfl⟩, rfl, rfl⟩

/-- C5 counterexample: with the artifact found, the copy succeeding and
the dynamic load succeeding but the native initialization entry point
reporting failure, construction nevertheless succeeds (the source discards
the return value of `init()`), refuting the claim that construction fails
whenever initialization reports failure. -/
theorem C5_counterexample :
    constructSession false ⟨true, true, true, false⟩ = .ok (freshSession false) := by
  rfl

/-- C5 amended: session construction fails — with IndexError when the
canonical artifact is missing and OSError when the copy or the dynamic
load fails (no dedicated LoadError class exists) — exactly when one of
those three steps fails; the native initialization entry point's reported
status is discarded, so an init-reported failure does not fail
construction and the session is handed to the caller as usable. -/
theorem C5_construction_failure (isWindows : Bool) (e : LoadEnv) :
    ((∃ err, constructSession isWindows e = .error err)
      ↔ (e.artifactFound = false ∨ e.copyOk = false ∨ e.loadOk = false))
    ∧ (∀ b b' : Bool,
        constructSession isWindows { e with initReportsSuccess := b }
          = constructSession isWindows { e with initReportsSuccess := b' }) := by
  obtain ⟨a, c, l, i⟩ := e
  refine ⟨?_, fun b b' => by cases a <;> cases c <;> cases l <;> rfl⟩
  cases a <;> cases c <;> cases l <;> simp [constructSession]

/-- Modelled from the spec: the process-wide state behind
`NamedTemporaryFile` and `cdll.LoadLibrary`, which are not part of this
repository.  The spec requires a "uniquely-named temporary location" per
session; we model the allocator by a monotone counter, identify each
temporary copy and each loaded handle by its allocation number, and record
which copies and handles currently exist. -/
structure World where
  nextTemp : Nat
  tempFiles : List Nat
  loadedHandles : List Nat
  deriving DecidableEq, Repr

/-- Resources owned by one open session: the path of its private binary
copy and its loaded module handle. -/
structure SessionRes where
  libPath : Nat
  handle : Nat
  deriving DecidableEq, Repr

/-- Session construction as it touches shared process state
(src/xrotor/xrotor.py lines 48-54): allocate a fresh uniquely-named
temporary file, copy the canonical binary there, and load the module from
that private path, yielding a handle private to this load. -/
def openSession (w : World) : SessionRes × World :=
  let path := w.nextTemp
  (⟨path, path⟩,
   ⟨w.nextTemp + 1, path :: w.tempFiles, path :: w.loadedHandles⟩)

/-- Session teardown as it touches shared process state (the first,
successful run of `XRotor.__del__`): unload this session's handle and
delete this session's private copy, touching nothing else. -/
def closeSession (s : SessionRes) (w : World) : World :=
  ⟨w.nextTemp, w.tempFiles.erase s.libPath, w.loadedHandles.erase s.handle⟩

/-- Model of the native module's scalar configuration state.  Modelled
from the spec: the native get/set entry points live in the opaque
precompiled library, which holds the current max-iteration count and
print flag; set stores the pushed value, get returns the stored value. -/
structure NativeConfigState where
  maxIter : Int
  printFlag : Bool
  deriving DecidableEq, Repr

/-- Truncation performed by `ctypes.c_int` on a python integer: reduce to
the value's 32-bit two's-complement representative. -/
def cIntOfInt (v : Int) : Int :=
  (v + 2 ^ 31) % 2 ^ 32 - 2 ^ 31

/-- Shallow embedding of the `max_iter` setter (src/xrotor/xrotor.py lines
88-90): the value is wrapped in a `c_int` and pushed to the native module
immediately, with no validation at this layer. -/
def setMaxIter (st : NativeConfigState) (value : Int) : NativeConfigState :=
  { st with maxIter := cIntOfInt value }

/-- Shallow embedding of the `max_iter` getter (src/xrotor/xrotor.py lines
83-86): return the native module's current value. -/
def getMaxIter (st : NativeConfigState) : Int :=
  st.maxIter

/-- Shallow embedding of the `print` flag setter (src/xrotor/xrotor.py
lines 79-81): the value is wrapped in a `c_bool` and pushed immediately,
with no validation at this layer. -/
def setPrintFlag (st : NativeConfigState) (value : Bool) : NativeConfigState :=
  { st with printFlag := value }

/-- Shallow embedding of the `print` flag getter (src/xrotor/xrotor.py
lines 74-77). -/
def getPrintFlag (st : NativeConfigState) : Bool :=
  st.printFlag

/-- Model of the native module's per-station diagnostic state.  Modelled
from the spec: the opaque library holds one (normalized radial position,
local Reynolds number) pair per computational station. -/
structure StationLib where
  stations : List (ℚ × ℚ)
  deriving DecidableEq, Repr

/-- Trace entries for the native calls made by the station-diagnostics
pull. -/
inductive StationCall where
  | getNumberOfStations
  | getStationConditionsCall (n : Nat)
  deriving DecidableEq, Repr

/-- Native `get_number_of_stations` entry point: report the station
count. -/
def get_number_of_stations (lib : StationLib) : Nat :=
  lib.stations.length

/-- Native `get_station_conditions` entry point.  Modelled from the spec:
given the requested count n it fills the two caller-sized buffers with
exactly n (position, Reynolds-number) values. -/
def get_station_conditions (lib : StationLib) (n : Nat) : List ℚ × List ℚ :=
  ((lib.stations.take n).map Prod.fst, (lib.stations.take n).map Prod.snd)

/-- Shallow embedding of the `station_conditions` property
(src/xrotor/xrotor.py lines 130-137): query the station count n, size two
buffers to n, and request exactly n pairs into them; the second component
is the trace of native calls performed, in order. -/
def station_conditions (lib : StationLib) : (List ℚ × List ℚ) × List StationCall :=
  let n := get_number_of_stations lib
  (get_station_conditions lib n,
   [.getNumberOfStations, .getStationConditionsCall n])

end XRotorSpec

namespace XRotorSpec

/-- C6: two sessions opened in sequence against any process state use
distinct private binary copies and obtain distinct loaded handles, and
closing the first leaves the second's copy present and its handle loaded. -/
theorem C6_session_isolation (w0 : World) :
    (openSession w0).fst.libPath ≠ (openSession (openSession w0).snd).fst.libPath
    ∧ (openSession w0).fst.handle ≠ (openSession (openSession w0).snd).fst.handle
    ∧ (openSession (openSession w0).snd).fst.libPath ∈
        (closeSession (openSession w0).fst (openSession (openSession w0).snd).snd).tempFiles
    ∧ (openSession (openSession w0).snd).fst.handle ∈
        (closeSession (openSession w0).fst (openSession (openSession w0).snd).snd).loadedHandles := by
  obtain ⟨n, fs, hs⟩ := w0
  refine ⟨by simp [openSession], by simp [openSession], ?_, ?_⟩ <;>
    · simp only [openSession, closeSession]
      rw [List.erase_cons_tail (by simp)]
      simp

/-- C7: for any positive N representable in a native signed 32-bit
integer, pushing N through the max-iteration setter and reading the value
back returns N; the setter stores every pushed value unvalidated (only the
`c_int` truncation applies), and the print flag round-trips likewise. -/
theorem C7_max_iter_roundtrip (st : NativeConfigState) (N : Int)
    (hpos : 0 < N) (hrange : N < 2 ^ 31) :
    getMaxIter (setMaxIter st N) = N
    ∧ (∀ v : Int, getMaxIter (setMaxIter st v) = cIntOfInt v)
    ∧ (∀ b : Bool, getPrintFlag (setPrintFlag st b) = b) := by
  refine ⟨?_, fun v => rfl, fun b => rfl⟩
  show cIntOfInt N = N
  unfold cIntOfInt
  omega

/-- C7 witness: the round-trip theorem instantiated at N = 100. -/
theorem C7_max_iter_roundtrip_witness :
    getMaxIter (setMaxIter ⟨0, false⟩ 100) = 100 :=
  (C7_max_iter_roundtrip ⟨0, false⟩ 100 (by decide) (by decide)).1

/-- C8: the station-diagnostics pull is two-step — it first queries the
native station count n and then requests exactly n pairs — and the two
arrays it returns each have length exactly n. -/
theorem C8_station_conditions (lib : StationLib) :
    (station_conditions lib).fst.fst.length = get_number_of_stations lib
    ∧ (station_conditions lib).fst.snd.length = get_number_of_stations lib
    ∧ (station_conditions lib).snd =
        [.getNumberOfStations, .getStationConditionsCall (get_number_of_stations lib)] := by
  refine ⟨?_, ?_, rfl⟩ <;>
    simp [station_conditions, get_station_conditions, get_number_of_stations]

/-- Atmospheric and operating conditions of a run case, carried
symbolically as rationals (the wrapper converts each to `c_float`). -/
structure Conditions where
  rho : ℚ
  vso : ℚ
  rmu : ℚ
  alt : ℚ
  vel : ℚ
  adv : ℚ
  deriving DecidableEq, Repr

/-- Blade geometry scalars and the geometry station count. -/
structure Geometry where
  r_hub : ℚ
  r_tip : ℚ
  r_wake : ℚ
  rake : ℚ
  n_geom : Int
  deriving DecidableEq, Repr

/-- Blade data: aerodynamic section count, the two two-dimensional data
matrices (row-major lists of rows, as numpy presents them), and the
geometry scalars. -/
structure Blade where
  n_aero : Int
  aerodata : List (List ℚ)
  geomdata : List (List ℚ)
  geometry : Geometry
  deriving DecidableEq, Repr

/-- Disk configuration: blade count and the blade. -/
structure Disk where
  n_blds : Int
  blade : Blade
  deriving DecidableEq, Repr

/-- Solver flags. -/
structure Settings where
  free : Bool
  duct : Bool
  wind : Bool
  deriving DecidableEq, Repr

/-- The run-case descriptor as consumed by the case setter. -/
structure Case where
  conditions : Conditions
  disk : Disk
  settings : Settings
  deriving DecidableEq, Repr

/-- Memory order of a marshaled multi-dimensional buffer. -/
inductive ArrOrder where
  | fortran
  | cOrder
  deriving DecidableEq, Repr

/-- A value crossing the foreign-function boundary, tagged with the C type
it is transmitted as: `cfloat` is a single-precision real (`c_float`),
`cint` a native signed integer (`c_int`), `cbool` a single-byte truth
value (`c_bool`), and `cfloatArray` a contiguous buffer of
single-precision reals in the recorded memory order. -/
inductive CValue where
  | cfloat (x : ℚ)
  | cint (n : Int)
  | cbool (b : Bool)
  | cfloatArray (order : ArrOrder) (data : List ℚ)
  deriving DecidableEq, Repr

/-- Column j of a row-major matrix (entries past a row's end default to
0; irrelevant for rectangular matrices). -/
def columnOf (m : List (List ℚ)) (j : Nat) : List ℚ :=
  m.map (fun row => row.getD j 0)

/-- Column-major (Fortran-style) flattening of a row-major matrix: the
columns laid out one after another, as `np.asfortranarray` arranges the
memory it hands to the native module. -/
def flattenFortran (m : List (List ℚ)) : List ℚ :=
  ((List.range (m.headD []).length).map (columnOf m)).flatten

/-- Marshaling performed by `np.asfortranarray(...).ctypes.data_as(fptr)`:
the matrix crosses as a single-precision buffer in column-major order. -/
def asfortranarray (m : List (List ℚ)) : CValue :=
  .cfloatArray .fortran (flattenFortran m)

/-- Shallow embedding of the argument list the case setter passes to the
native `set_case` entry point (src/xrotor/xrotor.py lines 97-119), in the
source's order and with the source's C types. -/
def set_case_args (c : Case) : List CValue :=
  [ .cfloat c.conditions.rho,
    .cfloat c.conditions.vso,
    .cfloat c.conditions.rmu,
    .cfloat c.conditions.alt,
    .cfloat c.conditions.vel,
    .cfloat c.conditions.adv,
    .cfloat c.disk.blade.geometry.r_hub,
    .cfloat c.disk.blade.geometry.r_tip,
    .cfloat c.disk.blade.geometry.r_wake,
    .cfloat c.disk.blade.geometry.rake,
    .cint c.disk.n_blds,
    .cint c.disk.blade.n_aero,
    .cint c.disk.blade.geometry.n_geom,
    asfortranarray c.disk.blade.aerodata,
    asfortranarray c.disk.blade.geomdata,
    .cbool c.settings.free,
    .cbool c.settings.duct,
    .cbool c.settings.wind ]

/-- Predicate: a marshaled value uses one of the contract's C types, with
any array buffer in column-major order. -/
def contractTyped (v : CValue) : Prop :=
  match v with
  | .cfloat _ => True
  | .cint _ => True
  | .cbool _ => True
  | .cfloatArray order _ => order = .fortran

/-- Concrete run case used for concrete evaluations of the case push. -/
def testCase : Case :=
  { conditions := ⟨1225 / 1000, 340, 1789 / 100000000, 1, 27, 15 / 100⟩,
    disk := ⟨2, ⟨1, [[1, 2], [3, 4]], [[5, 6], [7, 8]], ⟨6 / 100, 83 / 100, 0, 0, 2⟩⟩⟩,
    settings := ⟨true, false, false⟩ }

/-- Indexing a concatenation of equal-length blocks: element i of block j
sits at offset j * k + i of the flattened list. -/
theorem flatten_getElem_uniform {α : Type} (L : List (List α)) (k : Nat)
    (hk : ∀ l ∈ L, l.length = k) :
    ∀ j i, j < L.length → i < k →
      L.flatten[j * k + i]? = (L.getD j [])[i]? := by
  induction L with
  | nil => intro j i hj _; exact absurd hj (by simp)
  | cons col rest ih =>
    intro j i hj hi
    have hc : col.length = k := hk col (by simp)
    cases j with
    | zero =>
      rw [Nat.zero_mul, Nat.zero_add, List.flatten_cons,
        List.getElem?_append_left (by omega)]
      simp
    | succ j =>
      have hlen : col.length ≤ (j + 1) * k + i := by
        have hkk : k ≤ (j + 1) * k := Nat.le_mul_of_pos_left _ (Nat.succ_pos j)
        omega
      rw [List.flatten_cons, List.getElem?_append_right hlen]
      have harith : (j + 1) * k + i - col.length = j * k + i := by
        rw [hc, Nat.succ_mul]; omega
      rw [harith]
      have hrest := ih (fun l hl => hk l (List.mem_cons_of_mem _ hl)) j i
        (by simpa using hj) hi
      simpa using hrest

/-- Column-major layout of the flattened buffer: the element in row i,
column j of the row-major matrix appears at offset j * nrows + i. -/
theorem flattenFortran_getElem (m : List (List ℚ)) (i j : Nat)
    (hi : i < m.length) (hj : j < (m.headD []).length) :
    (flattenFortran m)[j * m.length + i]? = some ((m.getD i []).getD j 0) := by
  unfold flattenFortran
  have hcols : ∀ l ∈ (List.range (m.headD []).length).map (columnOf m),
      l.length = m.length := by
    intro l hl
    simp only [List.mem_map] at hl
    obtain ⟨a, _, rfl⟩ := hl
    simp [columnOf]
  have hjlt : j < ((List.range (m.headD []).length).map (columnOf m)).length := by
    simpa using hj
  rw [flatten_getElem_uniform _ m.length hcols j i hjlt hi]
  have hgd : ((List.range (m.headD []).length).map (columnOf m)).getD j []
      = columnOf m j := by
    rw [List.getD_eq_getElem?_getD, List.getElem?_map, List.getElem?_range hj]
    rfl
  rw [hgd]
  unfold columnOf
  rw [List.getElem?_map, List.getElem?_eq_getElem hi]
  have : m.getD i [] = m[i] := by
    rw [List.getD_eq_getElem?_getD, List.getElem?_eq_getElem hi]
    rfl
  rw [this]
  rfl

end XRotorSpec

namespace XRotorSpec

/-- C9: every value the case push marshals across the boundary uses the
numeric contract's C types — real scalars as single-precision `c_float`,
the three counts as native signed `c_int`, the three flags as single-byte
`c_bool`, and the two data matrices as single-precision buffers in
column-major (Fortran) order: the buffers transmitted are the column-major
flattenings of the aerodynamic and geometry matrices, so the element in
row i, column j of a matrix sits at buffer offset j * nrows + i. -/
theorem C9_numeric_contract (c : Case) :
    (∀ v ∈ set_case_args c, contractTyped v)
    ∧ (set_case_args c)[13]?
        = some (.cfloatArray .fortran (flattenFortran c.disk.blade.aerodata))
    ∧ (set_case_args c)[14]?
        = some (.cfloatArray .fortran (flattenFortran c.disk.blade.geomdata))
    ∧ (∀ i j, i < c.disk.blade.aerodata.length →
        j < (c.disk.blade.aerodata.headD []).length →
        (flattenFortran c.disk.blade.aerodata)[j * c.disk.blade.aerodata.length + i]?
          = some ((c.disk.blade.aerodata.getD i []).getD j 0))
    ∧ (∀ i j, i < c.disk.blade.geomdata.length →
        j < (c.disk.blade.geomdata.headD []).length →
        (flattenFortran c.disk.blade.geomdata)[j * c.disk.blade.geomdata.length + i]?
          = some ((c.disk.blade.geomdata.getD i []).getD j 0)) := by
  refine ⟨?_, rfl, rfl,
    fun i j hi hj => flattenFortran_getElem _ i j hi hj,
    fun i j hi hj => flattenFortran_getElem _ i j hi hj⟩
  intro v hv
  simp only [set_case_args, asfortranarray, List.mem_cons, List.not_mem_nil, or_false] at hv
  rcases hv with h | h | h | h | h | h | h | h | h | h | h | h | h | h | h | h | h | h <;>
    subst h <;> trivial

/-- C9 witness: on the concrete test case the aerodynamic matrix
[[1,2],[3,4]] crosses as the column-major buffer [1,3,2,4], and the
layout equation of the theorem holds at row 0, column 1. -/
theorem C9_numeric_contract_witness :
    flattenFortran testCase.disk.blade.aerodata = [1, 3, 2, 4]
    ∧ (flattenFortran testCase.disk.blade.aerodata)[1 * testCase.disk.blade.aerodata.length + 0]?
        = some ((testCase.disk.blade.aerodata.getD 0 []).getD 1 0) :=
  ⟨by decide, (C9_numeric_contract testCase).2.2.2.1 0 1 (by decide) (by decide)⟩

end XRotorSpec
